import Mathlib

set_option autoImplicit false

/-
Verification of the Auth & Abuse-Control Core of the FastAPI todo service
(src/FastAPI/main.py and the src/FastAPI/cloud variant), as a shallow
embedding in Lean 4.

Time is modelled in seconds as Nat.  `datetime.utcnow()` becomes an explicit
`now : Timestamp` argument; the Python timedelta comparison
`now - attempt < BLOCK_DURATION` becomes the same comparison on Nat
(truncated subtraction agrees with the Python semantics: a timestamp in the
future of `now` also counts as recent in both).
-/

namespace AuthCore

abbrev Timestamp := Nat

/-- BLOCK_DURATION = timedelta(minutes=15) from main.py line 29, in seconds. -/
def BLOCK_DURATION : Nat := 15 * 60

/-- MAX_FAILED_ATTEMPTS = 5 from main.py line 30. -/
def MAX_FAILED_ATTEMPTS : Nat := 5

/-- The `failed_attempts` defaultdict (main.py line 28): client ip to the list
of failure timestamps, embedded as an association list with unique keys. -/
abbrev FailedAttempts := List (String × List Timestamp)

/-- Dictionary lookup: `failed_attempts.get(client_ip, ...)` without default. -/
def fa_lookup : FailedAttempts → String → Option (List Timestamp)
  | [], _ => none
  | (k, v) :: rest, key => if k = key then some v else fa_lookup rest key

/-- Dictionary lookup with default: `failed_attempts.get(client_ip, [])`. -/
def fa_getD (m : FailedAttempts) (key : String) : List Timestamp :=
  (fa_lookup m key).getD []

/-- Dictionary assignment: `failed_attempts[client_ip] = v`. -/
def fa_set : FailedAttempts → String → List Timestamp → FailedAttempts
  | [], key, v => [(key, v)]
  | (k, v') :: rest, key, v =>
      if k = key then (key, v) :: rest else (k, v') :: fa_set rest key v

/-- Dictionary deletion: `del failed_attempts[client_ip]`. -/
def fa_erase : FailedAttempts → String → FailedAttempts
  | [], _ => []
  | (k, v) :: rest, key =>
      if k = key then fa_erase rest key else (k, v) :: fa_erase rest key

/-- Dictionary membership: `client_ip in failed_attempts`. -/
def fa_mem (m : FailedAttempts) (key : String) : Bool :=
  (fa_lookup m key).isSome

/-- Embedding of `is_ip_blocked` (main.py lines 33-41; identical in
cloud/src/api/deps.py lines 23-28).  Returns the boolean result together with
the mutated global map (the function writes the pruned list back). -/
def is_ip_blocked (m : FailedAttempts) (client_ip : String) (now : Timestamp) :
    Bool × FailedAttempts :=
  let attempts := fa_getD m client_ip
  let recent_attempts := attempts.filter (fun attempt => now - attempt < BLOCK_DURATION)
  let m' := fa_set m client_ip recent_attempts
  (decide (MAX_FAILED_ATTEMPTS ≤ recent_attempts.length), m')

/-- Embedding of `record_failed_attempt` (main.py lines 43-44):
`failed_attempts[client_ip].append(datetime.utcnow())` on a defaultdict. -/
def record_failed_attempt (m : FailedAttempts) (client_ip : String)
    (now : Timestamp) : FailedAttempts :=
  fa_set m client_ip (fa_getD m client_ip ++ [now])

theorem fa_lookup_set_self (m : FailedAttempts) (key : String) (v : List Timestamp) :
    fa_lookup (fa_set m key v) key = some v := by
  induction m with
  | nil => simp [fa_set, fa_lookup]
  | cons p rest ih =>
      obtain ⟨k, v'⟩ := p
      by_cases h : k = key
      · simp [fa_set, fa_lookup, h]
      · simp [fa_set, fa_lookup, h, ih]

theorem fa_lookup_erase_self (m : FailedAttempts) (key : String) :
    fa_lookup (fa_erase m key) key = none := by
  induction m with
  | nil => simp [fa_erase, fa_lookup]
  | cons p rest ih =>
      obtain ⟨k, v⟩ := p
      by_cases h : k = key
      · simp [fa_erase, h, ih]
      · simp [fa_erase, fa_lookup, h, ih]

theorem fa_getD_set_self (m : FailedAttempts) (key : String) (v : List Timestamp) :
    fa_getD (fa_set m key v) key = v := by
  simp [fa_getD, fa_lookup_set_self]

/-- C1: `is_ip_blocked` returns true iff at least MAX_FAILED_ATTEMPTS = 5 of
the recorded failure timestamps for the client lie within the trailing
BLOCK_DURATION = 15-minute window; the check writes the pruned list back and
compares its length against the threshold.  In particular a client with 5
recorded failures inside the window is blocked and one with 4 is not. -/
theorem is_ip_blocked_iff_threshold :
    (∀ (m : FailedAttempts) (ip : String) (now : Timestamp),
       ((is_ip_blocked m ip now).1 = true ↔
         MAX_FAILED_ATTEMPTS ≤
           ((fa_getD m ip).filter (fun a => now - a < BLOCK_DURATION)).length)
       ∧ (is_ip_blocked m ip now).2 =
           fa_set m ip ((fa_getD m ip).filter (fun a => now - a < BLOCK_DURATION)))
    ∧ (∀ (ip : String) (now : Timestamp) (ts : List Timestamp),
       ts.length = 5 → (∀ t ∈ ts, now - t < BLOCK_DURATION) →
       (is_ip_blocked [(ip, ts)] ip now).1 = true)
    ∧ (∀ (ip : String) (now : Timestamp) (ts : List Timestamp),
       ts.length = 4 → (∀ t ∈ ts, now - t < BLOCK_DURATION) →
       (is_ip_blocked [(ip, ts)] ip now).1 = false) := by
  refine ⟨fun m ip now => ⟨?_, rfl⟩, fun ip now ts h5 hin => ?_, fun ip now ts h4 hin => ?_⟩
  · simp [is_ip_blocked]
  · have hfilter : ts.filter (fun a => now - a < BLOCK_DURATION) = ts := by
      apply List.filter_eq_self.mpr
      intro t ht
      simpa using hin t ht
    simp [is_ip_blocked, fa_getD, fa_lookup, hfilter, h5, MAX_FAILED_ATTEMPTS]
  · have hle : (ts.filter (fun a => now - a < BLOCK_DURATION)).length ≤ 4 := by
      calc (ts.filter (fun a => now - a < BLOCK_DURATION)).length
          ≤ ts.length := List.length_filter_le _ _
        _ = 4 := h4
    have hd : fa_getD [(ip, ts)] ip = ts := by simp [fa_getD, fa_lookup]
    simp only [is_ip_blocked, hd, decide_eq_false_iff_not, not_le, MAX_FAILED_ATTEMPTS]
    omega

/-- Witness for C1: a concrete client with 5 failures inside the window is
blocked; with 4 it is not. -/
theorem is_ip_blocked_iff_threshold_witness :
    (is_ip_blocked [("1.2.3.4", [10, 20, 30, 40, 50])] "1.2.3.4" 100).1 = true
    ∧ (is_ip_blocked [("1.2.3.4", [10, 20, 30, 40])] "1.2.3.4" 100).1 = false :=
  ⟨is_ip_blocked_iff_threshold.2.1 "1.2.3.4" 100 [10, 20, 30, 40, 50] rfl (by decide),
   is_ip_blocked_iff_threshold.2.2 "1.2.3.4" 100 [10, 20, 30, 40] rfl (by decide)⟩

/-
Credential store.  The users table (db.py UserDB: email, hashed_password) is
embedded as a list of records; `get_user` (main.py lines 60-61) filters on
`UserDB.email == email`, which the backend evaluates as exact string
equality (no lowercasing or collation override appears anywhere in src).
-/

/-- A row of the users table (db.py class UserDB; id omitted: no claim uses it). -/
structure UserRec where
  email : String
  hashed_password : String
deriving DecidableEq, Repr

abbrev Db := List UserRec

/-- Embedding of `get_user` (main.py lines 60-61):
`db.query(UserDB).filter(UserDB.email == email).first()`. -/
def get_user (db : Db) (email : String) : Option UserRec :=
  db.find? (fun u => u.email == email)

/-- Modelled from the spec: password hashing is done by the external passlib
CryptContext (bcrypt), whose implementation is not in src.  Spec section 4.1:
`hash(password) -> hash` is one-way and salted.  We model a well-formed hash
as the bcrypt scheme tag followed by the password; irreversibility and
salting are not needed by any claim. -/
def get_password_hash (password : String) : String :=
  "$2b$" ++ password

/-- A stored hash the hashing scheme recognises (starts with the bcrypt tag);
anything else is a malformed hash string.  Stated on the character list so
that concrete instances evaluate inside the kernel. -/
def is_well_formed_hash (hashed : String) : Bool :=
  "$2b$".data.isPrefixOf hashed.data

/-- Modelled from the spec: `verify(password, hash)` of the external passlib
CryptContext (main.py lines 54-55 merely delegate to it).  Spec section 4.1:
true iff the password matches the hash; "malformed hash input is treated as
verification failure, not a crash" — so the function is total and returns
false on any hash the scheme does not recognise. -/
def verify_password (plain_password hashed_password : String) : Bool :=
  if is_well_formed_hash hashed_password then
    hashed_password == get_password_hash plain_password
  else
    false

/-- Embedding of `authenticate_user` (main.py lines 63-69): Python returns
`False` or the user row, embedded as an Option. -/
def authenticate_user (db : Db) (email password : String) : Option UserRec :=
  match get_user db email with
  | none => none
  | some user =>
      if verify_password password user.hashed_password then some user else none

/-
Token service.  Tokens are python-jose JWTs (main.py lines 71-79 encode,
223-243 / 492-507 decode).  A token value is either a correctly serialised
payload signed with some key, or an arbitrary string that does not parse as
a JWT at all; `jwt.decode` checks the signature against the expected key and
then the exp claim against the clock, raising a JWTError subclass in every
failure case.
-/

/-- Decoded JWT payload: the dict `{"sub": email, "exp": expire}` built by
`create_access_token`; `sub` is optional because `payload.get("sub")` may be
None for a token minted elsewhere. -/
structure JwtPayload where
  sub : Option String
  exp : Timestamp
deriving DecidableEq, Repr

/-- A bearer-token value as received from the client: either a genuine JWT
signed with some key, or a string that does not parse as a JWT. -/
inductive Jwt where
  | signed (payload : JwtPayload) (key : String)
  | malformed (raw : String)
deriving DecidableEq

/-- Internal failure modes of `jwt.decode` — all raised as subclasses of
JWTError, distinguishable internally but all caught by `except JWTError`. -/
inductive JwtError where
  | invalidSignature
  | expired
  | malformedToken
deriving DecidableEq, Repr

/-- Embedding of `jwt.decode(token, key, algorithms=[...])` at clock time
`now`: signature check, then expiry check (python-jose raises
ExpiredSignatureError iff the exp claim is strictly in the past). -/
def jwt_decode (token : Jwt) (key : String) (now : Timestamp) :
    Except JwtError JwtPayload :=
  match token with
  | .malformed _ => .error .malformedToken
  | .signed payload k =>
      if k ≠ key then .error .invalidSignature
      else if payload.exp < now then .error .expired
      else .ok payload

/-- Embedding of `create_access_token` (main.py lines 71-79): the `data`
argument is the dict `{"sub": ...}` (its only use site passes exactly that
key), `expires_delta` defaults to 15 minutes, and the exp claim is the
absolute time now + delta. -/
def create_access_token (data : Option String) (expires_delta : Option Nat)
    (now : Timestamp) (key : String) : Jwt :=
  let expire := match expires_delta with
    | some d => now + d
    | none => now + 15 * 60
  .signed { sub := data, exp := expire } key

/-- C3: validating a token immediately after issuing it succeeds and returns
the same subject, and once the clock strictly exceeds issued-at + ttl the
same token fails validation with the expiry failure mode. -/
theorem token_issue_validate_roundtrip (subject : String) (ttl : Nat)
    (now : Timestamp) (key : String) :
    jwt_decode (create_access_token (some subject) (some ttl) now key) key now =
      .ok { sub := some subject, exp := now + ttl }
    ∧ ∀ later : Timestamp, now + ttl < later →
        jwt_decode (create_access_token (some subject) (some ttl) now key) key later =
          .error .expired := by
  constructor
  · simp [jwt_decode, create_access_token]
  · intro later hlater
    simp [jwt_decode, create_access_token, hlater]

/-- Witness for C3: concrete round trip and expiry at ttl = 60 seconds. -/
theorem token_issue_validate_roundtrip_witness :
    jwt_decode (create_access_token (some "a@x.com") (some 60) 0 "k") "k" 0 =
      .ok { sub := some "a@x.com", exp := 60 }
    ∧ jwt_decode (create_access_token (some "a@x.com") (some 60) 0 "k") "k" 61 =
      .error .expired :=
  ⟨(token_issue_validate_roundtrip "a@x.com" 60 0 "k").1,
   (token_issue_validate_roundtrip "a@x.com" 60 0 "k").2 61 (by decide)⟩

/-
Auth gateway: the guard dependency `get_current_user` (main.py lines 223-243,
textually identical to cloud/src/api/deps.py lines 54-76), the standalone
`/auth/me` handler `get_current_user_info` (main.py lines 492-507), `login`
(main.py lines 464-490, identical to cloud auth.py lines 32-60) and
`register` (main.py lines 451-462).  An HTTPException is embedded as its
status code and detail string.
-/

/-- An `HTTPException(status_code=..., detail=...)` as seen by the caller. -/
structure HttpError where
  status : Nat
  detail : String
deriving DecidableEq, Repr

/-- Embedding of the guard `get_current_user` (main.py lines 223-243): decode
the bearer token, reject with 401 "Could not validate credentials" on any
JWTError, on a missing sub claim, and on an unknown user; otherwise return
the user row. -/
def get_current_user (token : Jwt) (key : String) (now : Timestamp) (db : Db) :
    Except HttpError UserRec :=
  match jwt_decode token key now with
  | .error _ => .error { status := 401, detail := "Could not validate credentials" }
  | .ok payload =>
      match payload.sub with
      | none => .error { status := 401, detail := "Could not validate credentials" }
      | some email =>
          match get_user db email with
          | none => .error { status := 401, detail := "Could not validate credentials" }
          | some user => .ok user

/-- Embedding of the `/auth/me` handler `get_current_user_info` (main.py
lines 492-507).  Faithful to the source: the missing-sub branch raises 401
with the misspelled detail "Cound not validate credentials" (line 499; the
HTTPException escapes the `except JWTError` clause), and an unknown user
yields 404 "User not found" (line 506). -/
def get_current_user_info (token : Jwt) (key : String) (now : Timestamp) (db : Db) :
    Except HttpError UserRec :=
  match jwt_decode token key now with
  | .error _ => .error { status := 401, detail := "Could not validate credentials" }
  | .ok payload =>
      match payload.sub with
      | none => .error { status := 401, detail := "Cound not validate credentials" }
      | some email =>
          match get_user db email with
          | none => .error { status := 404, detail := "User not found" }
          | some user => .ok user

/-- Embedding of `login` (main.py lines 464-490): prune-and-check lockout
first (the check itself mutates the map), then authenticate; on credential
failure record the failure and raise 401; on success delete the client's
entry (guarded by a membership test in the source) and mint a token with
the configured ttl.  Returns the outcome and the resulting attempt map. -/
def login (db : Db) (m : FailedAttempts) (client_ip email password : String)
    (now : Timestamp) (key : String) (token_ttl : Nat) :
    Except HttpError Jwt × FailedAttempts :=
  let checked := is_ip_blocked m client_ip now
  if checked.1 then
    (.error { status := 429, detail := "Too many failed attempts" }, checked.2)
  else
    match authenticate_user db email password with
    | none =>
        (.error { status := 401, detail := "Incorrect email or password" },
         record_failed_attempt checked.2 client_ip now)
    | some user =>
        let cleared :=
          if fa_mem checked.2 client_ip then fa_erase checked.2 client_ip else checked.2
        (.ok (create_access_token (some user.email) (some token_ttl) now key), cleared)

/-- Embedding of `register` (main.py lines 451-462): 400 "Email has been
registered" when `get_user` finds the email, otherwise hash, persist and
return the new row. -/
def register (db : Db) (email password : String) : Except HttpError (UserRec × Db) :=
  match get_user db email with
  | some _ => .error { status := 400, detail := "Email has been registered" }
  | none =>
      let user : UserRec := { email := email, hashed_password := get_password_hash password }
      .ok (user, db ++ [user])

/-- C4 counterexample: a validly signed token whose subject is absent from
the store is answered by the `/auth/me` handler with 404 "User not found",
not with the claimed 401 Unauthorized. -/
theorem absent_identity_me_counterexample :
    get_current_user_info (create_access_token (some "ghost@x.com") (some 60) 0 "k") "k" 0 [] =
      .error { status := 404, detail := "User not found" }
    ∧ ¬ ∃ d, get_current_user_info (create_access_token (some "ghost@x.com") (some 60) 0 "k") "k" 0 [] =
        .error { status := 401, detail := d } := by
  refine ⟨rfl, ?_⟩
  rintro ⟨d, h⟩
  simp [get_current_user_info, jwt_decode, create_access_token, get_user] at h

/-- C4 amended: both handlers first validate the token and then look up the
embedded subject; when the identity is absent the `require_identity` guard
(`get_current_user`) rejects with the same 401 as for an invalid token,
while the `/auth/me` handler (`get_current_user_info`) instead rejects
with 404 "User not found". -/
theorem absent_identity_guard_vs_me (token : Jwt) (key : String) (now : Timestamp)
    (db : Db) (payload : JwtPayload) (email : String)
    (hdec : jwt_decode token key now = .ok payload)
    (hsub : payload.sub = some email)
    (habs : get_user db email = none) :
    get_current_user token key now db =
      .error { status := 401, detail := "Could not validate credentials" }
    ∧ get_current_user_info token key now db =
      .error { status := 404, detail := "User not found" } := by
  constructor
  · simp [get_current_user, hdec, hsub, habs]
  · simp [get_current_user_info, hdec, hsub, habs]

/-- Witness for the amended C4 at a concrete token and an empty store. -/
theorem absent_identity_guard_vs_me_witness :
    get_current_user (.signed { sub := some "e@x.com", exp := 60 } "k") "k" 0 [] =
      .error { status := 401, detail := "Could not validate credentials" }
    ∧ get_current_user_info (.signed { sub := some "e@x.com", exp := 60 } "k") "k" 0 [] =
      .error { status := 404, detail := "User not found" } :=
  absent_identity_guard_vs_me (.signed { sub := some "e@x.com", exp := 60 } "k") "k" 0 []
    { sub := some "e@x.com", exp := 60 } "e@x.com" rfl rfl rfl

/-- C5: evaluation of the `/auth/me` handler at its three token-validation
failure modes.  A signed token with no sub claim is rejected with the
misspelled detail "Cound not validate credentials" (main.py line 499), while
a wrongly signed token and an expired token are rejected with "Could not
validate credentials" — the details differ, so the three modes are NOT
reported identically there, contradicting the documented intent (the guard
`get_current_user` does report all three identically). -/
theorem me_detail_typo_divergence :
    get_current_user_info (.signed { sub := none, exp := 100 } "k") "k" 0 [] =
      .error { status := 401, detail := "Cound not validate credentials" }
    ∧ get_current_user_info (.signed { sub := some "a@x.com", exp := 100 } "other") "k" 0 [] =
      .error { status := 401, detail := "Could not validate credentials" }
    ∧ get_current_user_info (.signed { sub := some "a@x.com", exp := 100 } "k") "k" 200 [] =
      .error { status := 401, detail := "Could not validate credentials" }
    ∧ get_current_user_info (.malformed "garbage") "k" 0 [] =
      .error { status := 401, detail := "Could not validate credentials" }
    ∧ get_current_user (.signed { sub := none, exp := 100 } "k") "k" 0 [] =
      .error { status := 401, detail := "Could not validate credentials" }
    ∧ get_current_user (.signed { sub := some "a@x.com", exp := 100 } "other") "k" 0 [] =
      .error { status := 401, detail := "Could not validate credentials" }
    ∧ get_current_user (.signed { sub := some "a@x.com", exp := 100 } "k") "k" 200 [] =
      .error { status := 401, detail := "Could not validate credentials" }
    ∧ get_current_user (.malformed "garbage") "k" 0 [] =
      .error { status := 401, detail := "Could not validate credentials" }
    ∧ "Cound not validate credentials" ≠ "Could not validate credentials" := by
  refine ⟨rfl, rfl, ?_, rfl, rfl, rfl, ?_, rfl, by decide⟩
  · simp [get_current_user_info, jwt_decode]
  · simp [get_current_user, jwt_decode]

/-- C6: deleting a client's entry from the failed-attempts map (the `clear`
performed by a successful login, `del failed_attempts[client_ip]`) makes
`is_ip_blocked` return false immediately afterwards, for every prior state —
locked out or not — and every later clock value, even inside the original
15-minute window. -/
theorem clear_unblocks_immediately :
    ∀ (m : FailedAttempts) (client_ip : String) (now' : Timestamp),
      (is_ip_blocked (fa_erase m client_ip) client_ip now').1 = false := by
  intro m client_ip now'
  simp [is_ip_blocked, fa_getD, fa_lookup_erase_self, MAX_FAILED_ATTEMPTS]

/-- ASCII case-insensitive character equality (uppercase letters differ from
their lowercase forms by 32 code points). -/
def char_eq_ci (a b : Char) : Bool :=
  a.toNat == b.toNat
  || (65 ≤ a.toNat && a.toNat ≤ 90 && a.toNat + 32 == b.toNat)
  || (65 ≤ b.toNat && b.toNat ≤ 90 && b.toNat + 32 == a.toNat)

/-- Modelled from the spec's words, for comparison only (spec section 3:
"unique email (case-insensitive comparison)"): case-insensitive email
equality.  The source itself compares emails with plain equality and never
normalises case. -/
def email_eq_ci (a b : String) : Bool :=
  a.data.length == b.data.length
  && (List.zip a.data b.data).all (fun p => char_eq_ci p.1 p.2)

/-- C8 counterexample: with "a@x.com" registered, registering "A@x.com" — an
email equal up to case, so the claim demands Conflict — succeeds and
persists a second identity.  Email equality in the code is exact string
comparison, not case-insensitive. -/
theorem register_case_insensitive_counterexample :
    email_eq_ci "A@x.com" "a@x.com" = true
    ∧ register [{ email := "a@x.com", hashed_password := "$2b$secret1" }] "A@x.com" "pw2345" =
        .ok ({ email := "A@x.com", hashed_password := "$2b$pw2345" },
             [{ email := "a@x.com", hashed_password := "$2b$secret1" },
              { email := "A@x.com", hashed_password := "$2b$pw2345" }]) := by
  refine ⟨by decide, ?_⟩
  simp [register, get_user, get_password_hash, List.find?]

/-- C8 amended: `register` returns Conflict (400, "Email has been
registered") iff an identity with exactly that email string — equality is
case-sensitive — is already present; otherwise it hashes the password,
persists the new identity, and returns it. -/
theorem register_conflict_iff_exact_email :
    ∀ (db : Db) (email password : String),
      (register db email password =
          .error { status := 400, detail := "Email has been registered" } ↔
        ∃ u ∈ db, u.email = email)
      ∧ (get_user db email = none →
          register db email password =
            .ok ({ email := email, hashed_password := get_password_hash password },
                 db ++ [{ email := email, hashed_password := get_password_hash password }])) := by
  intro db email password
  constructor
  · cases hget : get_user db email with
    | none =>
        simp only [register, hget]
        constructor
        · intro h
          exact absurd h (by simp)
        · rintro ⟨u, hu, he⟩
          have : ∃ u, get_user db email = some u := by
            have : (db.find? (fun v => v.email == email)).isSome = true := by
              apply List.find?_isSome.mpr
              exact ⟨u, hu, by simp [he]⟩
            simpa [get_user, Option.isSome_iff_exists] using this
          obtain ⟨u', hu'⟩ := this
          rw [hget] at hu'
          exact absurd hu' (by simp)
    | some u =>
        simp only [register, hget]
        constructor
        · intro _
          refine ⟨u, List.mem_of_find?_eq_some hget, ?_⟩
          have := List.find?_some hget
          simpa using this
        · intro _
          trivial
  · intro hget
    simp [register, hget]

/-- Witness for the amended C8: registering against the empty store
succeeds, and re-registering the same email then conflicts. -/
theorem register_conflict_iff_exact_email_witness :
    register [] "a@x.com" "secret1" =
      .ok ({ email := "a@x.com", hashed_password := "$2b$secret1" },
           [{ email := "a@x.com", hashed_password := "$2b$secret1" }])
    ∧ register [{ email := "a@x.com", hashed_password := "$2b$secret1" }] "a@x.com" "secret2" =
        .error { status := 400, detail := "Email has been registered" } :=
  ⟨by
    have h := (register_conflict_iff_exact_email [] "a@x.com" "secret1").2 rfl
    simpa [get_password_hash] using h,
   (register_conflict_iff_exact_email
      [{ email := "a@x.com", hashed_password := "$2b$secret1" }] "a@x.com" "secret2").1.mpr
      ⟨{ email := "a@x.com", hashed_password := "$2b$secret1" }, by simp, rfl⟩⟩

/-- C9: a malformed stored hash verifies false instead of raising, so a
login attempt against an identity with a corrupt stored hash takes the
ordinary credential-failure path: 401 "Incorrect email or password" with a
failure recorded — never a crash. -/
theorem malformed_hash_fails_closed :
    (∀ plain hashed : String, is_well_formed_hash hashed = false →
       verify_password plain hashed = false)
    ∧ (∀ (db : Db) (m : FailedAttempts) (client_ip email password : String)
         (now : Timestamp) (key : String) (token_ttl : Nat) (u : UserRec),
         get_user db email = some u →
         is_well_formed_hash u.hashed_password = false →
         (is_ip_blocked m client_ip now).1 = false →
         login db m client_ip email password now key token_ttl =
           (.error { status := 401, detail := "Incorrect email or password" },
            record_failed_attempt (is_ip_blocked m client_ip now).2 client_ip now)) := by
  constructor
  · intro plain hashed h
    simp [verify_password, h]
  · intro db m client_ip email password now key token_ttl u hget hmal hblocked
    have hauth : authenticate_user db email password = none := by
      simp [authenticate_user, hget, verify_password, hmal]
    simp [login, hblocked, hauth]

/-- Witness for C9: a concrete user whose stored hash "nothash" the scheme
does not recognise; login fails with 401 and records the failure. -/
theorem malformed_hash_fails_closed_witness :
    verify_password "secret1" "nothash" = false
    ∧ login [{ email := "a@x.com", hashed_password := "nothash" }] [] "1.2.3.4"
        "a@x.com" "secret1" 0 "k" 3600 =
        (.error { status := 401, detail := "Incorrect email or password" },
         record_failed_attempt
           (is_ip_blocked [] "1.2.3.4" 0).2 "1.2.3.4" 0) :=
  ⟨malformed_hash_fails_closed.1 "secret1" "nothash" (by decide),
   malformed_hash_fails_closed.2 [{ email := "a@x.com", hashed_password := "nothash" }]
     [] "1.2.3.4" "a@x.com" "secret1" 0 "k" 3600
     { email := "a@x.com", hashed_password := "nothash" } rfl (by decide) (by decide)⟩

/-- C10: a login with an unregistered email and a login with a registered
email but a wrong password are externally indistinguishable: the two runs
return the very same outcome (status 401, detail "Incorrect email or
password") and the very same resulting attempt map, namely one with a
failure timestamp recorded for the client (when the client is not locked
out; a locked-out client gets the identical 429 in both runs). -/
theorem login_no_email_oracle :
    ∀ (db : Db) (m : FailedAttempts) (client_ip : String) (now : Timestamp)
      (key : String) (token_ttl : Nat)
      (email1 pw1 email2 pw2 : String) (u : UserRec),
      get_user db email1 = none →
      get_user db email2 = some u →
      verify_password pw2 u.hashed_password = false →
      login db m client_ip email1 pw1 now key token_ttl =
        login db m client_ip email2 pw2 now key token_ttl
      ∧ ((is_ip_blocked m client_ip now).1 = false →
          login db m client_ip email1 pw1 now key token_ttl =
            (.error { status := 401, detail := "Incorrect email or password" },
             record_failed_attempt (is_ip_blocked m client_ip now).2 client_ip now)) := by
  intro db m client_ip now key token_ttl email1 pw1 email2 pw2 u h1 h2 h3
  have hauth1 : authenticate_user db email1 pw1 = none := by
    simp [authenticate_user, h1]
  have hauth2 : authenticate_user db email2 pw2 = none := by
    simp [authenticate_user, h2, h3]
  constructor
  · by_cases hb : (is_ip_blocked m client_ip now).1 = true
    · simp [login, hb]
    · simp only [Bool.not_eq_true] at hb
      simp [login, hb, hauth1, hauth2]
  · intro hb
    simp [login, hb, hauth1]

/-- Witness for C10: store holding "a@x.com"; login with unknown "b@x.com"
and login with "a@x.com" and a wrong password coincide exactly. -/
theorem login_no_email_oracle_witness :
    login [{ email := "a@x.com", hashed_password := "$2b$secret1" }] [] "1.2.3.4"
        "b@x.com" "whatever" 0 "k" 3600 =
      login [{ email := "a@x.com", hashed_password := "$2b$secret1" }] [] "1.2.3.4"
        "a@x.com" "wrongpw" 0 "k" 3600 :=
  (login_no_email_oracle [{ email := "a@x.com", hashed_password := "$2b$secret1" }]
    [] "1.2.3.4" 0 "k" 3600 "b@x.com" "whatever" "a@x.com" "wrongpw"
    { email := "a@x.com", hashed_password := "$2b$secret1" } rfl rfl (by decide)).1

/-- Sequence of login attempts with fixed credentials at the given clock
times, threading the failed-attempts map through. -/
def login_fold (db : Db) (m : FailedAttempts) (client_ip email password : String)
    (times : List Timestamp) (key : String) (token_ttl : Nat) : FailedAttempts :=
  times.foldl (fun s t => (login db s client_ip email password t key token_ttl).2) m

theorem filter_window_keep_all (w lo hi now : Nat) (hwin : hi - lo < w)
    (hlo : lo ≤ now) (hhi : now ≤ hi) (l : List Timestamp)
    (hl : ∀ t ∈ l, lo ≤ t ∧ t ≤ hi) :
    l.filter (fun a => now - a < w) = l := by
  apply List.filter_eq_self.mpr
  intro t ht
  have h := hl t ht
  simp only [decide_eq_true_eq]
  omega

theorem login_fail_getD (db : Db) (m : FailedAttempts) (client_ip email password : String)
    (now : Timestamp) (key : String) (token_ttl : Nat)
    (hb : (is_ip_blocked m client_ip now).1 = false)
    (ha : authenticate_user db email password = none) :
    fa_getD (login db m client_ip email password now key token_ttl).2 client_ip =
      (fa_getD m client_ip).filter (fun a => now - a < BLOCK_DURATION) ++ [now] := by
  have hb' : ¬ MAX_FAILED_ATTEMPTS ≤
      ((fa_getD m client_ip).filter (fun a => now - a < BLOCK_DURATION)).length := by
    simpa [is_ip_blocked] using hb
  simp [login, is_ip_blocked, hb', ha, record_failed_attempt, fa_getD_set_self]

theorem login_fold_fail_getD (db : Db) (client_ip email password key : String)
    (token_ttl : Nat) (lo hi : Nat) (hwin : hi - lo < BLOCK_DURATION)
    (ha : authenticate_user db email password = none) :
    ∀ (times : List Timestamp) (m : FailedAttempts) (prev : List Timestamp),
      fa_getD m client_ip = prev →
      (∀ t ∈ prev, lo ≤ t ∧ t ≤ hi) →
      (∀ t ∈ times, lo ≤ t ∧ t ≤ hi) →
      prev.length + times.length ≤ MAX_FAILED_ATTEMPTS →
      fa_getD (login_fold db m client_ip email password times key token_ttl) client_ip
        = prev ++ times := by
  intro times
  induction times with
  | nil =>
      intro m prev hm _ _ _
      simpa [login_fold] using hm
  | cons t rest ih =>
      intro m prev hm hprev htimes hlen
      have htin : lo ≤ t ∧ t ≤ hi := htimes t (by simp)
      have hfilter : prev.filter (fun a => t - a < BLOCK_DURATION) = prev :=
        filter_window_keep_all BLOCK_DURATION lo hi t hwin htin.1 htin.2 prev hprev
      have hlen' : prev.length + rest.length + 1 ≤ MAX_FAILED_ATTEMPTS := by
        simpa [List.length_cons, Nat.add_assoc] using hlen
      have hb : (is_ip_blocked m client_ip t).1 = false := by
        simp only [is_ip_blocked, hm, hfilter, decide_eq_false_iff_not, not_le]
        simp only [MAX_FAILED_ATTEMPTS] at hlen' ⊢
        omega
      have hstep : fa_getD (login db m client_ip email password t key token_ttl).2 client_ip
          = prev ++ [t] := by
        rw [login_fail_getD db m client_ip email password t key token_ttl hb ha, hm, hfilter]
      have hrest : login_fold db m client_ip email password (t :: rest) key token_ttl
          = login_fold db (login db m client_ip email password t key token_ttl).2
              client_ip email password rest key token_ttl := by
        simp [login_fold]
      rw [hrest]
      have hnext := ih (login db m client_ip email password t key token_ttl).2 (prev ++ [t])
        hstep
        (by
          intro x hx
          rcases List.mem_append.mp hx with h | h
          · exact hprev x h
          · simp only [List.mem_singleton] at h
            subst h
            exact htin)
        (fun x hx => htimes x (by simp [hx]))
        (by simp only [List.length_append, List.length_singleton]; omega)
      rw [hnext, List.append_assoc]
      simp

/-- C2: the lockout check runs before credential verification.  A locked-out
client gets 429 "Too many failed attempts" regardless of the supplied
password; otherwise a credential failure records a failure timestamp and
yields 401, and a credential success clears the client's failure history and
issues a token.  Consequently, after 5 failed logins from one client at
times inside a common 15-minute window, a 6th attempt in that window — with
any password, in particular the correct one — is answered 429, not with a
credential error. -/
theorem login_lockout_precedes_credentials :
    (∀ (db : Db) (m : FailedAttempts) (client_ip email password : String)
       (now : Timestamp) (key : String) (token_ttl : Nat),
       (is_ip_blocked m client_ip now).1 = true →
       login db m client_ip email password now key token_ttl =
         (.error { status := 429, detail := "Too many failed attempts" },
          (is_ip_blocked m client_ip now).2))
    ∧ (∀ (db : Db) (m : FailedAttempts) (client_ip email password : String)
         (now : Timestamp) (key : String) (token_ttl : Nat),
         (is_ip_blocked m client_ip now).1 = false →
         authenticate_user db email password = none →
         login db m client_ip email password now key token_ttl =
           (.error { status := 401, detail := "Incorrect email or password" },
            record_failed_attempt (is_ip_blocked m client_ip now).2 client_ip now))
    ∧ (∀ (db : Db) (m : FailedAttempts) (client_ip email password : String)
         (now : Timestamp) (key : String) (token_ttl : Nat) (u : UserRec),
         (is_ip_blocked m client_ip now).1 = false →
         authenticate_user db email password = some u →
         (login db m client_ip email password now key token_ttl).1 =
           .ok (create_access_token (some u.email) (some token_ttl) now key)
         ∧ fa_lookup (login db m client_ip email password now key token_ttl).2 client_ip
             = none)
    ∧ (∀ (db : Db) (m : FailedAttempts) (client_ip email wrongpw correctpw key : String)
         (token_ttl : Nat) (lo hi : Nat) (times : List Timestamp) (t6 : Timestamp),
         fa_getD m client_ip = [] →
         times.length = 5 →
         hi - lo < BLOCK_DURATION →
         (∀ t ∈ times, lo ≤ t ∧ t ≤ hi) →
         lo ≤ t6 → t6 ≤ hi →
         authenticate_user db email wrongpw = none →
         (login db (login_fold db m client_ip email wrongpw times key token_ttl)
            client_ip email correctpw t6 key token_ttl).1 =
           .error { status := 429, detail := "Too many failed attempts" }) := by
  refine ⟨?_, ?_, ?_, ?_⟩
  · intro db m client_ip email password now key token_ttl hb
    simp [login, hb]
  · intro db m client_ip email password now key token_ttl hb ha
    simp [login, hb, ha]
  · intro db m client_ip email password now key token_ttl u hb ha
    have hb' : ¬ MAX_FAILED_ATTEMPTS ≤
        ((fa_getD m client_ip).filter (fun a => now - a < BLOCK_DURATION)).length := by
      simpa [is_ip_blocked] using hb
    constructor
    · simp [login, hb, ha]
    · simp [login, is_ip_blocked, hb', ha, fa_mem, fa_lookup_set_self, fa_lookup_erase_self]
  · intro db m client_ip email wrongpw correctpw key token_ttl lo hi times t6
      hm h5 hwin htimes hlo6 hhi6 ha
    have hfold : fa_getD (login_fold db m client_ip email wrongpw times key token_ttl)
        client_ip = times := by
      have h := login_fold_fail_getD db client_ip email wrongpw key token_ttl lo hi hwin ha
        times m [] hm (by simp) htimes (by simp [h5, MAX_FAILED_ATTEMPTS])
      simpa using h
    have hfilter : times.filter (fun a => t6 - a < BLOCK_DURATION) = times :=
      filter_window_keep_all BLOCK_DURATION lo hi t6 hwin hlo6 hhi6 times htimes
    have hb : (is_ip_blocked (login_fold db m client_ip email wrongpw times key token_ttl)
        client_ip t6).1 = true := by
      simp [is_ip_blocked, hfold, hfilter, h5, MAX_FAILED_ATTEMPTS]
    simp [login, hb]

/-- Witness for C2: "a@x.com" with password "secret1" registered; five wrong
attempts at seconds 0..4, then the correct password at second 5 is answered
429. -/
theorem login_lockout_precedes_credentials_witness :
    (login [{ email := "a@x.com", hashed_password := "$2b$secret1" }]
       (login_fold [{ email := "a@x.com", hashed_password := "$2b$secret1" }] []
          "1.2.3.4" "a@x.com" "wrongpw" [0, 1, 2, 3, 4] "k" 3600)
       "1.2.3.4" "a@x.com" "secret1" 5 "k" 3600).1 =
      .error { status := 429, detail := "Too many failed attempts" } :=
  login_lockout_precedes_credentials.2.2.2
    [{ email := "a@x.com", hashed_password := "$2b$secret1" }] [] "1.2.3.4" "a@x.com"
    "wrongpw" "secret1" "k" 3600 0 5 [0, 1, 2, 3, 4] 5 rfl rfl (by decide)
    (by decide) (by decide) (by decide) (by decide)

/-
Rate limiter.  The sliding-window limiter itself lives in the external
slowapi library; src only declares the per-route ceilings through
`@limiter.limit` decorators ("5/minute" on login, main.py line 465;
"20/minute" on todo creation, line 256; "100/minute" on todo listing,
line 295).  The `allow` operation is therefore modelled from the spec.
-/

/-- A route's static rate configuration {max_requests, window_duration}
(spec section 4.4), window in seconds. -/
structure RouteConfig where
  max_requests : Nat
  window : Nat
deriving DecidableEq, Repr

/-- Route ceiling "5/minute" on the login route (main.py line 465). -/
def login_rate_limit : RouteConfig := { max_requests := 5, window := 60 }

/-- Route ceiling "20/minute" on todo creation (main.py line 256). -/
def create_rate_limit : RouteConfig := { max_requests := 20, window := 60 }

/-- Route ceiling "100/minute" on todo listing (main.py line 295). -/
def list_rate_limit : RouteConfig := { max_requests := 100, window := 60 }

/-- Modelled from the spec: `allow(client_id, route_key)` of the external
slowapi limiter (spec section 4.4): checks whether the request count for the
client and route within that route's window is below its ceiling; if
allowed, records the request; if not, rejects without recording further.
The per-(client, route) window is the list of request timestamps, pruned to
the trailing window on each check. -/
def rate_allow (cfg : RouteConfig) (hist : List Timestamp) (now : Timestamp) :
    Bool × List Timestamp :=
  let recent := hist.filter (fun t => now - t < cfg.window)
  if recent.length < cfg.max_requests then (true, recent ++ [now])
  else (false, recent)

/-- A sequence of requests at the given clock times against one
(client, route) window, threading the recorded history through. -/
def rate_run (cfg : RouteConfig) (hist : List Timestamp) :
    List Timestamp → List Bool × List Timestamp
  | [] => ([], hist)
  | t :: rest =>
      let step := rate_allow cfg hist t
      let next := rate_run cfg step.2 rest
      (step.1 :: next.1, next.2)

theorem rate_run_keep_all (cfg : RouteConfig) (lo hi : Nat)
    (hwin : hi - lo < cfg.window) :
    ∀ (times hist : List Timestamp),
      (∀ t ∈ hist, lo ≤ t ∧ t ≤ hi) →
      (∀ t ∈ times, lo ≤ t ∧ t ≤ hi) →
      hist.length + times.length ≤ cfg.max_requests →
      rate_run cfg hist times = (List.replicate times.length true, hist ++ times) := by
  intro times
  induction times with
  | nil =>
      intro hist _ _ _
      simp [rate_run]
  | cons t rest ih =>
      intro hist hhist htimes hlen
      simp only [List.length_cons] at hlen
      have htin := htimes t (by simp)
      have hfilter : hist.filter (fun a => t - a < cfg.window) = hist :=
        filter_window_keep_all cfg.window lo hi t hwin htin.1 htin.2 hist hhist
      have hlt : hist.length < cfg.max_requests := by omega
      have hallow : rate_allow cfg hist t = (true, hist ++ [t]) := by
        simp [rate_allow, hfilter, hlt]
      have hnext := ih (hist ++ [t])
        (by
          intro x hx
          rcases List.mem_append.mp hx with h | h
          · exact hhist x h
          · simp only [List.mem_singleton] at h
            subst h
            exact htin)
        (fun x hx => htimes x (by simp [hx]))
        (by simp only [List.length_append, List.length_singleton]; omega)
      simp [rate_run, hallow, hnext, List.replicate_succ, List.append_assoc]

/-- C7: for a route configured with ceiling N per window W (5/minute on
login, 20/minute on creation, 100/minute on listing), N requests from one
client at times inside a common window are all allowed; a further request in
that window is rejected and leaves the recorded counter unchanged; and a
request whose distance from every recorded one is at least W (the next
window) is allowed again. -/
theorem rate_limit_window_behaviour :
    (∀ (cfg : RouteConfig) (lo hi : Nat), hi - lo < cfg.window →
      ∀ times : List Timestamp, (∀ t ∈ times, lo ≤ t ∧ t ≤ hi) →
        times.length = cfg.max_requests →
        (rate_run cfg [] times).1 = List.replicate cfg.max_requests true
        ∧ (rate_run cfg [] times).2 = times
        ∧ (∀ t', lo ≤ t' → t' ≤ hi →
            rate_allow cfg (rate_run cfg [] times).2 t' = (false, times)))
    ∧ (∀ (cfg : RouteConfig) (hist : List Timestamp) (t' : Timestamp),
        0 < cfg.max_requests →
        (∀ t ∈ hist, cfg.window ≤ t' - t) →
        rate_allow cfg hist t' = (true, [t']))
    ∧ login_rate_limit = { max_requests := 5, window := 60 }
    ∧ create_rate_limit = { max_requests := 20, window := 60 }
    ∧ list_rate_limit = { max_requests := 100, window := 60 } := by
  refine ⟨?_, ?_, rfl, rfl, rfl⟩
  · intro cfg lo hi hwin times htimes hleN
    have hrun := rate_run_keep_all cfg lo hi hwin times [] (by simp) htimes
      (by simp [hleN])
    refine ⟨by simp [hrun, hleN], by simp [hrun], ?_⟩
    intro t' hlo' hhi'
    have hfilter : times.filter (fun a => t' - a < cfg.window) = times :=
      filter_window_keep_all cfg.window lo hi t' hwin hlo' hhi' times htimes
    have hfull : ¬ times.length < cfg.max_requests := by omega
    simp [hrun, rate_allow, hfilter, hfull]
  · intro cfg hist t' hpos hold
    have hfilter : hist.filter (fun a => t' - a < cfg.window) = [] := by
      apply List.filter_eq_nil_iff.mpr
      intro t ht
      have h := hold t ht
      simp only [decide_eq_true_eq]
      exact Nat.not_lt.mpr h
    simp [rate_allow, hfilter, hpos]

/-- Witness for C7 at the login route's 5/minute ceiling: five requests at
seconds 0..4 are allowed, a sixth at second 5 is rejected without being
recorded, and a request at second 64 — one window after the last recorded
request — is allowed. -/
theorem rate_limit_window_behaviour_witness :
    (rate_run login_rate_limit [] [0, 1, 2, 3, 4]).1 =
      List.replicate login_rate_limit.max_requests true
    ∧ rate_allow login_rate_limit (rate_run login_rate_limit [] [0, 1, 2, 3, 4]).2 5 =
        (false, [0, 1, 2, 3, 4])
    ∧ rate_allow login_rate_limit [0, 1, 2, 3, 4] 64 = (true, [64]) := by
  obtain ⟨h1, _, h3⟩ := rate_limit_window_behaviour.1 login_rate_limit 0 5 (by decide)
    [0, 1, 2, 3, 4] (by decide) (by decide)
  exact ⟨h1, h3 5 (by decide) (by decide),
    rate_limit_window_behaviour.2.1 login_rate_limit [0, 1, 2, 3, 4] 64 (by decide) (by decide)⟩

end AuthCore
